import Mathlib

/-!
Verification of the Outage Watch dashboard core (src/app.py) against its
natural-language specification.

The Python code is shallowly embedded: every summarizer from app.py becomes a
total Lean function over typed payloads.  Network fetches (requests +
feedparser + the Streamlit cache) are modelled as oracles: a fetch outcome is
an `Except String payload` argument (the `try`/`except` around each fetch in
the source corresponds to matching on that argument).  JSON object fields are
modelled at the types the parsers read them at; a missing key is `none`.
Python truthiness on a string-valued field is non-emptiness.  Python
`str.lower()` is modelled by ASCII case folding (all keyword tables in the
source are ASCII); `html.unescape` on feed titles is the identity on the
entity-free titles considered here and is therefore not modelled separately.
-/

namespace OutageWatch

/-- Lower-case one character, ASCII range only (model of Python `str.lower`). -/
def lowerChar (c : Char) : Char :=
  if 'A' ≤ c ∧ c ≤ 'Z' then Char.ofNat (c.toNat + 32) else c

/-- Lower-case a string, ASCII range only (model of Python `str.lower`). -/
def lowerS (s : String) : String := ⟨s.data.map lowerChar⟩

/-- Substring test on character lists (model of Python `needle in hay`). -/
def containsSub (hay needle : List Char) : Bool :=
  (List.range (hay.length + 1)).any (fun i => needle.isPrefixOf (hay.drop i))

/-- Substring test on strings (model of Python `needle in hay`). -/
def strIn (needle hay : String) : Bool := containsSub hay.data needle.data

/-- Strip trailing '/' (Python `url.rstrip("/")`). -/
def pyRstripSlash (s : String) : String :=
  ⟨(s.data.reverse.dropWhile (fun c => c = '/')).reverse⟩

/-- Severity rank table from app.py line 148 (`severity_order`); the rank of a
level string, with the `.get(level, 99)` default used at the sort site. -/
def severity_order (level : String) : Nat :=
  if level = "major" then 0
  else if level = "degraded" then 1
  else if level = "unknown" then 2
  else if level = "info" then 3
  else if level = "ok" then 4
  else 99

/-- Keyword table `major_words` from `_rss_level_from_title`. -/
def major_words : List String := ["major outage", "outage", "unavailable", "down"]

/-- Keyword table `degraded_words` from `_rss_level_from_title`. -/
def degraded_words : List String :=
  ["degraded", "investigating", "identified", "monitoring",
   "issue", "error", "latency", "impact", "connectivity",
   "disruption", "partial"]

/-- Keyword table `resolved_words` from `_rss_level_from_title`. -/
def resolved_words : List String := ["resolved", "operating normally", "recovered", "restored"]

/-- Does the (already lower-cased) text contain any keyword of the table?
Model of `any(w in title_lower for w in words)`. -/
def hasAnyWord (ws : List String) (s : String) : Bool := ws.any (fun w => strIn w s)

/-- Severity classifier `_rss_level_from_title` (app.py lines 151-166): the
input is the already lower-cased title; resolution keywords are checked first,
then major keywords, then degraded keywords, defaulting to "ok". -/
def _rss_level_from_title (title_lower : String) : String :=
  if hasAnyWord resolved_words title_lower then "ok"
  else if hasAnyWord major_words title_lower then "major"
  else if hasAnyWord degraded_words title_lower then "degraded"
  else "ok"

/-- Feed entry as read by the source (feedparser entry): `title` may be
absent (`getattr(e, "title", ...)`), `published`/`updated` default to "". -/
structure Entry where
  title : Option String
  published : String
  updated : String
deriving DecidableEq

/-- Title of an entry with the source's "Update" default. -/
def entryTitle (e : Entry) : String := e.title.getD "Update"

/-- Timestamp of an entry: `getattr(e, "published", "") or getattr(e, "updated", "")`. -/
def entryTs (e : Entry) : String := if e.published.isEmpty then e.updated else e.published

/-- Feed parser `summarize_rss` (app.py lines 215-245), over the fetch+parse
outcome: classify the 5 most recent entry titles, take the most severe. -/
def summarize_rss (fetched : Except String (List Entry)) : String × List String :=
  match fetched with
  | .error e => ("unknown", ["Fetch/parse error: " ++ e])
  | .ok entries =>
    if entries.isEmpty then ("ok", [])
    else
      let window := entries.take 5
      let levels := window.map (fun e => _rss_level_from_title (lowerS (entryTitle e)))
      let details := window.map (fun e => entryTitle e ++ " — " ++ entryTs e)
      let level :=
        if levels.contains "major" then "major"
        else if levels.contains "degraded" then "degraded"
        else "ok"
      (level, details.take 3)

/-- Truthiness of an optional string field (Python `bool(d.get(k))` for a
string-valued key: absent, null and "" are falsy). -/
def truthy (o : Option String) : Bool := !(o.getD "").isEmpty

/-- Model of Python `a or b` on two optional string fields (first truthy
value, else ""): used for `inc.get(x) or inc.get(y) or ""`. -/
def pyOrS (a b : Option String) : String :=
  if truthy a then a.getD "" else if truthy b then b.getD "" else ""

/-- Model of Python `a or b or d` with a non-empty string default. -/
def pyOrS3 (a b : Option String) (d : String) : String :=
  if truthy a then a.getD "" else if truthy b then b.getD "" else d

/-- Upper-case one character, ASCII range only (model of Python `str.upper`). -/
def upperChar (c : Char) : Char :=
  if 'a' ≤ c ∧ c ≤ 'z' then Char.ofNat (c.toNat - 32) else c

/-- Upper-case a string, ASCII range only (model of Python `str.upper`). -/
def upperS (s : String) : String := ⟨s.data.map upperChar⟩

/-- Nested `most_recent_update` object of a Google Workspace incident. -/
structure MostRecentUpdate where
  status : Option String
deriving DecidableEq

/-- Incident object of the bare-array incident feeds (GCP incidents.json and
Google Workspace incidents.json).  Each field is a key the two parsers read;
a key the payload lacks is `none`.  (The upstream dicts may carry keys a
given parser never reads, e.g. `resolved` on a Workspace incident.) -/
structure Incident where
  «end» : Option String
  resolved : Option String
  title : Option String
  service_name : Option String
  begin : Option String
  start : Option String
  severity : Option String
  impact : Option String
  most_recent_update : Option MostRecentUpdate
  external_desc : Option String
deriving DecidableEq

/-- Termination test of the GCP parser: `inc.get("end") or inc.get("resolved")`. -/
def gcpResolved (inc : Incident) : Bool := truthy inc.«end» || truthy inc.resolved

/-- Incident-array parser `summarize_gcp_incidents` (app.py lines 247-270):
"ok" when there is no active incident, else "degraded", escalated to "major"
when one of the first three active incidents carries a high-severity word. -/
def summarize_gcp_incidents (fetched : Except String (List Incident)) : String × List String :=
  match fetched with
  | .error e => ("unknown", ["Fetch/parse error: " ++ e])
  | .ok incidents =>
    if incidents.isEmpty then ("ok", [])
    else
      let active := incidents.filter (fun inc => !gcpResolved inc)
      if active.isEmpty then ("ok", [])
      else
        let top := active.take 3
        let level :=
          if top.any (fun inc =>
              let severity := lowerS (pyOrS inc.severity inc.impact)
              strIn "high" severity || strIn "major" severity)
          then "major" else "degraded"
        let details := top.map (fun inc =>
          let severity := lowerS (pyOrS inc.severity inc.impact)
          pyOrS3 inc.title inc.service_name "Incident" ++ " — started: " ++
            pyOrS inc.begin inc.start ++ " — severity/impact: " ++
            (if severity.isEmpty then "n/a" else severity))
        (level, details)

/-- Status string of a Workspace incident's most recent update:
`((inc.get("most_recent_update") or {}).get("status") or "").upper()`. -/
def mruStatus (inc : Incident) : String :=
  match inc.most_recent_update with
  | none => ""
  | some m => upperS (if truthy m.status then m.status.getD "" else "")

/-- First line of the stripped `external_desc`, "" when the field is falsy.
(Python indexes `splitlines()[0]`, which faults when the stripped text is
empty; the model returns "" in that corner, which no claim exercises.) -/
def extDescLine (inc : Incident) : String :=
  if truthy inc.external_desc then
    (((inc.external_desc.getD "").trim).splitOn "\n").headD ""
  else ""

/-- Incident-array parser `summarize_google_workspace_incidents` (app.py
lines 272-297): an incident is active when its `end` field is falsy (the
`resolved` key is never consulted here); escalation to "major" happens on a
SERVICE_OUTAGE status among the first three active incidents. -/
def summarize_google_workspace_incidents (fetched : Except String (List Incident)) :
    String × List String :=
  match fetched with
  | .error e => ("unknown", ["Fetch/parse error: " ++ e])
  | .ok incidents =>
    if incidents.isEmpty then ("ok", [])
    else
      let active := incidents.filter (fun i => !truthy i.«end»)
      if active.isEmpty then ("ok", [])
      else
        let top := active.take 3
        let level :=
          if top.any (fun inc => mruStatus inc = "SERVICE_OUTAGE") then "major" else "degraded"
        let details := top.map (fun inc =>
          let status := mruStatus inc
          let ext := extDescLine inc
          let title := if ext.isEmpty then "Google Workspace incident" else ⟨ext.data.take 120⟩
          title ++ " — status: " ++ (if status.isEmpty then "n/a" else status) ++
            " — began: " ++ (if truthy inc.begin then inc.begin.getD "" else ""))
        (level, details)

/-- Incident object of a Statuspage-style summary payload. -/
structure SPIncident where
  name : Option String
  impact : Option String
  updated_at : Option String
  created_at : Option String
deriving DecidableEq

/-- Dict-valued `status` object of a Statuspage-style summary payload. -/
structure SPStatus where
  indicator : Option String
deriving DecidableEq

/-- Statuspage-style summary payload: top-level `status.indicator` plus the
`incidents` and `scheduled_maintenances` arrays (an absent or null array is
modelled as []; `data.get(...) or []` makes those cases identical). -/
structure SPPayload where
  status : Option SPStatus
  incidents : List SPIncident
  scheduled_maintenances : List SPIncident
deriving DecidableEq

/-- Indicator extraction `(data.get("status", {}) or {}).get("indicator", "none")`.
An absent-or-falsy status object and an absent indicator key both give "none". -/
def spIndicator (p : SPPayload) : String :=
  match p.status with
  | none => "none"
  | some st => st.indicator.getD "none"

/-- Impact membership test `i.get("impact") in \x7b"major", "critical"\x7d`. -/
def spImpactMajor (i : SPIncident) : Bool :=
  i.impact == some "major" || i.impact == some "critical"

/-- Status-API parser `summarize_statuspage` (app.py lines 171-190).  The
incident list it scans is `incidents + scheduled_maintenances`. -/
def summarize_statuspage (fetched : Except String SPPayload) : String × List String :=
  match fetched with
  | .error e => ("unknown", ["Fetch error: " ++ e])
  | .ok data =>
    let indicator := spIndicator data
    let incidents := data.incidents ++ data.scheduled_maintenances
    let major := (indicator == "major" || indicator == "critical") || incidents.any spImpactMajor
    let degraded := indicator == "minor" || !incidents.isEmpty
    let level := if major then "major" else if degraded then "degraded" else "ok"
    let details := (incidents.take 3).map (fun i =>
      i.name.getD "Incident" ++ " — impact: " ++ i.impact.getD "n/a" ++
        " — updated: " ++ pyOrS i.updated_at i.created_at)
    (level, details)

/-- Status object of the Stripe current/full payload: the `status` value is
either a dict with an `indicator` key or a bare string. -/
inductive StripeStatus where
  | obj (indicator : Option String)
  | str (s : String)
deriving DecidableEq

/-- Stripe current/full payload (`data.get("status")`; a payload that is not
a dict behaves like one with no `status` key, i.e. `none`). -/
structure StripePayload where
  status : Option StripeStatus
deriving DecidableEq

/-- Vendor-specific parser `summarize_stripe_json` (app.py lines 299-317):
conservative, escalates only on an explicit indicator word, else "ok". -/
def summarize_stripe_json (fetched : Except String StripePayload) : String × List String :=
  match fetched with
  | .error e => ("unknown", ["Fetch/parse error: " ++ e])
  | .ok data =>
    let indicator : Option String :=
      match data.status with
      | some (.obj ind) => some (lowerS (if truthy ind then ind.getD "" else ""))
      | some (.str s) => some (lowerS s)
      | none => none
    if indicator == some "major" || indicator == some "critical" then
      ("major", ["See official Stripe status page for details."])
    else if indicator == some "minor" || indicator == some "degraded" then
      ("degraded", ["See official Stripe status page for details."])
    else ("ok", [])

/-- Characters before the first occurrence of `needle` (whole list when
absent): model of Python `hay.split(needle, 1)[0]`. -/
def takeBeforeSub (hay needle : List Char) : List Char :=
  match (List.range (hay.length + 1)).find? (fun i => needle.isPrefixOf (hay.drop i)) with
  | some i => hay.take i
  | none => hay

/-- HTML-text parser `summarize_statuspage_html` (app.py lines 319-334):
lower-case the page, cut it at "past incidents", then phrase-match. -/
def summarize_statuspage_html (fetched : Except String String) : String × List String :=
  match fetched with
  | .error e => ("unknown", ["Fetch error: " ++ e])
  | .ok raw =>
    let html := lowerS raw
    let top : String := ⟨takeBeforeSub html.data "past incidents".data⟩
    if strIn "major outage" top || strIn "partial outage" top then
      ("major", ["See official status page for details."])
    else if ["degraded performance", "investigating", "identified", "monitoring"].any
        (fun k => strIn k top) then
      ("degraded", ["See official status page for details."])
    else if strIn "all systems operational" top || strIn "all services are operational" top then
      ("ok", [])
    else ("unknown", ["See official status page for details."])

/-- Tag removal, model of `re.sub(r"<[^>]+>", " ", html)`: a '<', at least
one non-'>' character, and a '>' collapse to one space; an unmatched '<'
stays. -/
def stripTagsGo : Nat → List Char → List Char
  | 0, l => l
  | _ + 1, [] => []
  | fuel + 1, c :: rest =>
    if c = '<' then
      let inner := rest.takeWhile (fun d => d ≠ '>')
      if inner.isEmpty then '<' :: stripTagsGo fuel rest
      else if (rest.drop inner.length).head? = some '>' then
        ' ' :: stripTagsGo fuel (rest.drop (inner.length + 1))
      else '<' :: stripTagsGo fuel rest
    else c :: stripTagsGo fuel rest

/-- Tag removal over a whole character list; the fuel (one unit per consumed
character) makes the recursion structural. -/
def stripTags (l : List Char) : List Char := stripTagsGo l.length l

/-- ASCII portion of Python's `\s` class. -/
def isPySpace (c : Char) : Bool := [' ', '\t', '\n', '\r', '\x0b', '\x0c'].contains c

/-- Whitespace-run collapsing, model of `re.sub(r"\s+", " ", ·)`. -/
def collapseWsAux (prevSpace : Bool) : List Char → List Char
  | [] => []
  | c :: rest =>
    if isPySpace c then
      if prevSpace then collapseWsAux true rest else ' ' :: collapseWsAux true rest
    else c :: collapseWsAux false rest

/-- Whitespace-run collapsing, model of `re.sub(r"\s+", " ", ·)`. -/
def collapseWs (l : List Char) : List Char := collapseWsAux false l

/-- Model of Python `str.strip()` (ASCII whitespace). -/
def pyStrip (l : List Char) : List Char :=
  ((l.dropWhile isPySpace).reverse.dropWhile isPySpace).reverse

/-- HTML-text parser `summarize_mastercard_dev_html` (app.py lines 336-355):
strip tags, collapse whitespace, strip, lower-case; short text means a
JS-driven page ("info"), then keyword checks. -/
def summarize_mastercard_dev_html (fetched : Except String String) : String × List String :=
  match fetched with
  | .error e => ("unknown", ["Fetch error: " ++ e])
  | .ok raw =>
    let text : String := ⟨(pyStrip (collapseWs (stripTags raw.data))).map lowerChar⟩
    if text.length < 200 then
      ("info", ["Status page is likely JS-driven; unable to extract status text reliably."])
    else if strIn "unreachable" text || strIn "not available" text then
      ("major", ["One or more services reported as Unreachable/Not available (page text)."])
    else if strIn "partially degraded" text || strIn "degraded" text then
      ("degraded", ["One or more services reported as Partially Degraded (page text)."])
    else if strIn "healthy" text then ("ok", [])
    else ("info", ["Unable to classify from page text; see official status page."])

/-- Dict-valued `status` object of a Statuspage-style status.json payload
probed by `summarize_statuspage_try`. -/
structure TryStatus where
  indicator : Option String
deriving DecidableEq

/-- Payload fetched by `summarize_statuspage_try`: either its `status` value
is a dict (the parsed branch), or anything else (unexpected format). -/
inductive TryResp where
  | withStatus (st : TryStatus)
  | other
deriving DecidableEq

/-- Endpoint loop of `summarize_statuspage_try` (app.py lines 192-213); the
accumulator `tried` collects attempted endpoint suffixes in reverse. -/
def statuspage_try_loop (oracle : String → Except String TryResp) (base_url : String) :
    List String → List String → String × List String
  | [], tried =>
    ("info", ["No public JSON endpoints responded (" ++
      String.intercalate ", " tried.reverse ++ ")."])
  | ep :: rest, tried =>
    let url := pyRstripSlash base_url ++ ep
    match oracle url with
    | .error _ => statuspage_try_loop oracle base_url rest (ep :: tried)
    | .ok (.withStatus st) =>
      let indicator := lowerS (if truthy st.indicator then st.indicator.getD "" else "none")
      if indicator = "major" ∨ indicator = "critical" then
        ("major", ["Status indicator: " ++ indicator])
      else if indicator = "minor" then
        ("degraded", ["Status indicator: " ++ indicator])
      else ("ok", [])
    | .ok .other => ("info", ["Fetched JSON but format was unexpected; see official status page."])

/-- Probing parser `summarize_statuspage_try` over its two fixed endpoints. -/
def summarize_statuspage_try (oracle : String → Except String TryResp) (base_url : String) :
    String × List String :=
  statuspage_try_loop oracle base_url ["/api/v2/summary.json", "/api/v2/status.json"] []

/-- Provider descriptor row of the PROVIDERS table (app.py lines 92-120). -/
structure Provider where
  name : String
  kind : String
  url : String
  status_page : Option String
  note : Option String
deriving DecidableEq

/-- Link-only parser `summarize_link_only` (app.py lines 357-358). -/
def summarize_link_only (provider : Provider) : String × List String :=
  ("info", [if truthy provider.note then provider.note.getD "" else "See official status page."])

/-- Fetch oracles: one per payload shape the summarizers decode, keyed by
URL; they stand for `fetch_json` / `fetch_url_with_time` plus the respective
decoding step. -/
structure Env where
  statuspageJson : String → Except String SPPayload
  tryJson : String → Except String TryResp
  rssFeed : String → Except String (List Entry)
  gcpJson : String → Except String (List Incident)
  gwsJson : String → Except String (List Incident)
  stripeJson : String → Except String StripePayload
  htmlPage : String → Except String String

/-- Dispatcher `summarize` (app.py lines 360-383): the `kind` chain, with the
fallback result naming the unsupported kind. -/
def summarize (env : Env) (provider : Provider) : String × List String :=
  let kind := provider.kind
  let url := provider.url
  if kind = "statuspage" then summarize_statuspage (env.statuspageJson url)
  else if kind = "statuspage_try" then summarize_statuspage_try env.tryJson url
  else if kind = "rss" then summarize_rss (env.rssFeed url)
  else if kind = "gcp_incidents" then summarize_gcp_incidents (env.gcpJson url)
  else if kind = "gws_incidents_json" then summarize_google_workspace_incidents (env.gwsJson url)
  else if kind = "stripe_json" then summarize_stripe_json (env.stripeJson url)
  else if kind = "statuspage_html" then summarize_statuspage_html (env.htmlPage url)
  else if kind = "mastercard_dev_html" then summarize_mastercard_dev_html (env.htmlPage url)
  else if kind = "link_only" then summarize_link_only provider
  else ("unknown", ["Unsupported provider kind: " ++ kind])

/-- Kinds the dispatcher recognizes, in source order. -/
def recognized_kinds : List String :=
  ["statuspage", "statuspage_try", "rss", "gcp_incidents", "gws_incidents_json",
   "stripe_json", "statuspage_html", "mastercard_dev_html", "link_only"]

/-- ASCII digit test (ASCII portion of Python's `\d` class). -/
def isDigitCh (c : Char) : Bool := '0' ≤ c ∧ c ≤ '9'

/-- Numeric value of a digit run (Python `int(m.group(1))`). -/
def digitsToNat (ds : List Char) : Nat :=
  ds.foldl (fun n c => n * 10 + (c.toNat - '0'.toNat)) 0

/-- The literal "report" both count patterns anchor on. -/
def reportWord : List Char := "report".data

/-- Match of the pattern `(\d+)\s+reports?` at the head of the list: a digit
run, at least one whitespace character, then "report" (the optional final
"s" never affects success or the captured group). -/
def matchCountThenReport (l : List Char) : Option Nat :=
  let ds := l.takeWhile isDigitCh
  if ds.isEmpty then none
  else
    let rest := l.drop ds.length
    let sp := rest.takeWhile isPySpace
    if sp.isEmpty then none
    else if reportWord.isPrefixOf (rest.drop sp.length) then some (digitsToNat ds)
    else none

/-- Tail of the second pattern, `\s*[:\-]\s*(\d+)`: optional whitespace, a
colon or hyphen, optional whitespace, then the captured digit run. -/
def matchSepThenCount (l : List Char) : Option Nat :=
  match l.dropWhile isPySpace with
  | [] => none
  | c :: rest2 =>
    if c = ':' ∨ c = '-' then
      let ds := (rest2.dropWhile isPySpace).takeWhile isDigitCh
      if ds.isEmpty then none else some (digitsToNat ds)
    else none

/-- Match of the pattern `reports?\s*[:\-]\s*(\d+)` at the head of the list;
the greedy `s?` consumes an "s" when one follows "report" and backtracks to
the empty alternative when the remainder then fails. -/
def matchReportThenCount (l : List Char) : Option Nat :=
  if reportWord.isPrefixOf l then
    let rest := l.drop reportWord.length
    match rest with
    | 's' :: rest2 =>
      match matchSepThenCount rest2 with
      | some n => some n
      | none => matchSepThenCount rest
    | _ => matchSepThenCount rest
  else none

/-- Leftmost-match search (Python `re.search`): try the matcher at each
position left to right. -/
def searchPos (f : List Char → Option Nat) : List Char → Option Nat
  | [] => f []
  | c :: rest =>
    match f (c :: rest) with
    | some n => some n
    | none => searchPos f rest

/-- Report-count extraction from a lower-cased title (app.py lines 479-482):
the first pattern in the `or` chain that matches anywhere wins. -/
def extract_count (title_lower : List Char) : Option Nat :=
  match searchPos matchCountThenReport title_lower with
  | some n => some n
  | none => searchPos matchReportThenCount title_lower

/-- Report-count extraction from a feed entry (title defaulting and
lower-casing included). -/
def extract_title_count (e : Entry) : Option Nat :=
  extract_count (lowerS (entryTitle e)).data

/-- Loop state of the entry scan in `run_crowd_signals_for_group`. -/
structure ScanState where
  max_reports : Option Nat
  best_title : Option String
  best_time : Option String
deriving DecidableEq

/-- One iteration of the entry scan (app.py lines 473-497): a counted entry
replaces the maximum when strictly larger; an uncounted entry only seeds the
fallback headline when none is set yet. -/
def scanStep (st : ScanState) (e : Entry) : ScanState :=
  let title := entryTitle e
  match extract_title_count e with
  | some n =>
    match st.max_reports with
    | none =>
      { max_reports := some n, best_title := some title, best_time := some (entryTs e) }
    | some c =>
      if c < n then
        { max_reports := some n, best_title := some title, best_time := some (entryTs e) }
      else st
  | none =>
    match st.best_title with
    | none => { st with best_title := some title, best_time := some (entryTs e) }
    | some _ => st

/-- Scan of a window of feed entries, starting from the all-None state. -/
def scanEntries (l : List Entry) : ScanState :=
  l.foldl scanStep { max_reports := none, best_title := none, best_time := none }

/-- Crowd entity row of the CROWD_ALLOWLIST table (app.py lines 51-87). -/
structure CrowdItem where
  group : String
  name : String
  slug : String
  threshold : Nat
deriving DecidableEq

/-- Threshold rule `_telco_threshold` (app.py lines 44-48). -/
def _telco_threshold (name : String) : Nat :=
  if ["verizon", "t-mobile", "at&t", "o2", "ee", "bt", "vodafone uk", "virgin media"].any
      (fun x => strIn x (lowerS name)) then 35
  else 30

/-- Typed failure of one mirror fetch: an HTTP status failure
(requests.HTTPError, whose response may lack a status code) or any other
transport/parse error; `msg` models Python `str(e)`. -/
inductive FetchErr where
  | http (status : Option Nat) (msg : String)
  | other (msg : String)
deriving DecidableEq

/-- Message carried by a failure (Python `str(e)`). -/
def FetchErr.message : FetchErr → String
  | .http _ m => m
  | .other m => m

/-- Strip leading and trailing '/' (Python `slug.strip("/")`). -/
def stripSlashes (s : String) : String :=
  ⟨((s.data.dropWhile (fun c => c = '/')).reverse.dropWhile (fun c => c = '/')).reverse⟩

/-- Feed URL construction `build_outagereport_feed_url` (app.py lines
388-389), with the /outagereport/ path template inlined. -/
def build_outagereport_feed_url (inst : String) (slug : String) (count : Nat) : String :=
  pyRstripSlash inst ++ "/outagereport/" ++ stripSlashes slug ++ "/" ++
    toString count

/-- The fixed mirror list RSSHUB_INSTANCES (app.py lines 24-41). -/
def RSSHUB_INSTANCES : List String :=
  ["https://rsshub.app",
   "https://rsshub.rssforever.com",
   "https://hub.slarker.me",
   "https://rsshub.pseudoyu.com",
   "https://rsshub.rss.tips",
   "https://rsshub.ktachibana.party",
   "https://rsshub.woodland.cafe",
   "https://rss.owo.nz",
   "https://rss.wudifeixue.com",
   "https://yangzhi.app",
   "https://rss.littlebaby.lol",
   "https://rsshub.henry.wang",
   "https://rss.peachyjoy.top",
   "https://rsshub.speednet.icu",
   "https://hub.rss.direct",
   "https://rsshub.umzzz.com"]

/-- Transient HTTP status codes of the mirror resolver. -/
def transient_codes : List Nat := [403, 429, 500, 502, 503, 504]

/-- The 5-tuple returned by `fetch_crowd_feed_with_fallback`. -/
structure CrowdFetch where
  feed_url : Option String
  entries : List Entry
  fetched_at : Option String
  inst : Option String
  err : Option FetchErr
deriving DecidableEq

/-- Mirror loop of `fetch_crowd_feed_with_fallback` (app.py lines 391-410):
first success wins; on an HTTP failure the transient-code set is consulted
but both branches remember the error and continue (mirroring the source's
two identical continue paths), as does any other failure; exhaustion returns
the most recent error. -/
def fetch_fallback_loop (oracle : String → Except FetchErr (List Entry × String))
    (slug : String) (count : Nat) :
    List String → Option FetchErr → CrowdFetch
  | [], lastErr =>
    { feed_url := none, entries := [], fetched_at := none, inst := none, err := lastErr }
  | inst :: rest, _lastErr =>
    let url := build_outagereport_feed_url inst slug count
    match oracle url with
    | .ok (entries, fetchedAt) =>
      { feed_url := some url, entries := entries, fetched_at := some fetchedAt,
        inst := some inst, err := none }
    | .error e =>
      match e with
      | .http status _ =>
        if (match status with | some c => transient_codes.contains c | none => false) then
          fetch_fallback_loop oracle slug count rest (some e)
        else
          fetch_fallback_loop oracle slug count rest (some e)
      | .other _ => fetch_fallback_loop oracle slug count rest (some e)

/-- Mirror resolver `fetch_crowd_feed_with_fallback` over the fixed mirror
list. -/
def fetch_crowd_feed_with_fallback (oracle : String → Except FetchErr (List Entry × String))
    (slug : String) (count : Nat) : CrowdFetch :=
  fetch_fallback_loop oracle slug count RSSHUB_INSTANCES none

/-- Per-entity check record (app.py lines 438-449); `error` models
`str(err)` (the source also stores the Python exception class name, which
has no counterpart in the typed model). -/
structure Check where
  name : String
  slug : String
  threshold : Nat
  feed_url : String
  fetched_at : String
  inst : String
  ok : Bool
  error : String
deriving DecidableEq

/-- Alert record appended to `triggered` (app.py lines 499-510). -/
structure CrowdAlert where
  name : String
  reports : Nat
  threshold : Nat
  title : String
  time : String
  source_link : String
  feed_url : String
  fetched_at : String
  inst : String
deriving DecidableEq

/-- Check record built from one entity's fetch outcome (app.py lines
438-463): filled before scanning, so it exists even when the fetch failed. -/
def checkOf (s : CrowdItem) (res : CrowdFetch) : Check :=
  { name := s.name, slug := s.slug, threshold := s.threshold,
    feed_url := res.feed_url.getD "", fetched_at := res.fetched_at.getD "",
    inst := res.inst.getD "", ok := res.err.isNone,
    error := match res.err with | some e => e.message | none => "" }

/-- Alert decision for one entity (app.py lines 465-510): no entries means
no alert; otherwise scan the 5 most recent entries and alert exactly when
the maximum extracted count reaches the threshold. -/
def alertDecision (s : CrowdItem) (res : CrowdFetch) : Option CrowdAlert :=
  if res.entries.isEmpty then none
  else
    let st := scanEntries (res.entries.take 5)
    match st.max_reports with
    | some m =>
      if s.threshold ≤ m then
        some { name := s.name, reports := m, threshold := s.threshold,
               title := if truthy st.best_title then st.best_title.getD "" else "Crowd activity",
               time := if truthy st.best_time then st.best_time.getD "" else "",
               source_link := "https://outage.report/" ++ stripSlashes s.slug,
               feed_url := (checkOf s res).feed_url, fetched_at := (checkOf s res).fetched_at,
               inst := (checkOf s res).inst }
      else none
    | none => none

/-- Loop body of `run_crowd_signals_for_group` for one entity, over the
entity's fetch outcome. -/
def processEntries (s : CrowdItem) (res : CrowdFetch) : Check × Option CrowdAlert :=
  (checkOf s res, alertDecision s res)

/-- Loop body of `run_crowd_signals_for_group` for one entity, fetch
included. -/
def processItem (oracle : String → Except FetchErr (List Entry × String)) (s : CrowdItem) :
    Check × Option CrowdAlert :=
  processEntries s (fetch_crowd_feed_with_fallback oracle s.slug 10)

/-- Descending-by-reports order used on the `triggered` list
(`triggered.sort(key=..., reverse=True)`). -/
def alertOrder (a b : CrowdAlert) : Prop := b.reports ≤ a.reports

instance : DecidableRel alertOrder := fun a b => Nat.decLe b.reports a.reports

instance : IsTotal CrowdAlert alertOrder := ⟨fun a b => Nat.le_total b.reports a.reports⟩

instance : IsTrans CrowdAlert alertOrder := ⟨fun _ _ _ h1 h2 => le_trans h2 h1⟩

/-- Group runner `run_crowd_signals_for_group` (app.py lines 412-535) over
an explicit allowlist: one check per entity of the requested group, the
triggered alerts sorted by report count descending (Python's stable sort is
modelled by insertion sort over the total preorder `alertOrder`). -/
def run_crowd_signals_over (oracle : String → Except FetchErr (List Entry × String))
    (allowlist : List CrowdItem) (group_name : String) :
    List CrowdAlert × List Check :=
  let group_items := allowlist.filter (fun s => s.group = group_name)
  let pairs := group_items.map (fun s => processItem oracle s)
  (List.insertionSort alertOrder (pairs.filterMap (fun pr => pr.2)),
   pairs.map (fun pr => pr.1))

/-- The CROWD_ALLOWLIST table (app.py lines 51-87). -/
def CROWD_ALLOWLIST : List CrowdItem :=
  [{ group := "payments", name := "American Express", slug := "american-express", threshold := 30 },
   { group := "payments", name := "Visa", slug := "visa", threshold := 30 },
   { group := "payments", name := "Mastercard", slug := "mastercard", threshold := 30 },
   { group := "payments", name := "PayPal", slug := "paypal", threshold := 25 },
   { group := "payments", name := "Stripe", slug := "stripe", threshold := 25 },
   { group := "payments", name := "Fiserv", slug := "fiserv", threshold := 20 },
   { group := "payments", name := "Worldpay", slug := "worldpay", threshold := 20 },
   { group := "payments", name := "Adyen", slug := "adyen", threshold := 20 },
   { group := "telecoms", name := "Verizon", slug := "us/verizon",
     threshold := _telco_threshold "Verizon" },
   { group := "telecoms", name := "T-Mobile US", slug := "us/t-mobile",
     threshold := _telco_threshold "T-Mobile US" },
   { group := "telecoms", name := "AT&T", slug := "us/att",
     threshold := _telco_threshold "AT&T" },
   { group := "telecoms", name := "Vodafone UK", slug := "gb/vodafone",
     threshold := _telco_threshold "Vodafone UK" },
   { group := "telecoms", name := "BT (UK)", slug := "gb/bt",
     threshold := _telco_threshold "BT (UK)" },
   { group := "telecoms", name := "EE (UK)", slug := "gb/ee",
     threshold := _telco_threshold "EE (UK)" },
   { group := "telecoms", name := "Virgin Media (UK)", slug := "gb/virgin-media",
     threshold := _telco_threshold "Virgin Media (UK)" },
   { group := "telecoms", name := "China Mobile", slug := "china-mobile",
     threshold := _telco_threshold "China Mobile" },
   { group := "telecoms", name := "Bharti Airtel", slug := "bharti-airtel",
     threshold := _telco_threshold "Bharti Airtel" },
   { group := "telecoms", name := "Reliance Jio", slug := "reliance-jio",
     threshold := _telco_threshold "Reliance Jio" },
   { group := "telecoms", name := "China Telecom", slug := "china-telecom",
     threshold := _telco_threshold "China Telecom" },
   { group := "telecoms", name := "China Unicom", slug := "china-unicom",
     threshold := _telco_threshold "China Unicom" },
   { group := "telecoms", name := "América Móvil", slug := "america-movil",
     threshold := _telco_threshold "America Movil" },
   { group := "telecoms", name := "Vodafone Group", slug := "vodafone",
     threshold := _telco_threshold "Vodafone" },
   { group := "telecoms", name := "Orange", slug := "orange",
     threshold := _telco_threshold "Orange" },
   { group := "telecoms", name := "Telefónica", slug := "telefonica",
     threshold := _telco_threshold "Telefonica" },
   { group := "telecoms", name := "MTN Group", slug := "mtn",
     threshold := _telco_threshold "MTN" },
   { group := "telecoms", name := "Deutsche Telekom", slug := "deutsche-telekom",
     threshold := _telco_threshold "Deutsche Telekom" },
   { group := "telecoms", name := "Iliad Group", slug := "iliad",
     threshold := _telco_threshold "Iliad" },
   { group := "telecoms", name := "TIM (Telecom Italia)", slug := "tim",
     threshold := _telco_threshold "TIM" },
   { group := "telecoms", name := "Swisscom", slug := "swisscom",
     threshold := _telco_threshold "Swisscom" },
   { group := "telecoms", name := "Telia Company", slug := "telia",
     threshold := _telco_threshold "Telia" }]

/-- Group runner over the source's fixed allowlist. -/
def run_crowd_signals_for_group (oracle : String → Except FetchErr (List Entry × String))
    (group_name : String) : List CrowdAlert × List Check :=
  run_crowd_signals_over oracle CROWD_ALLOWLIST group_name

/-- The PROVIDERS table (app.py lines 92-120). -/
def PROVIDERS : List Provider :=
  [{ name := "AWS", kind := "rss", url := "https://status.aws.amazon.com/rss/all.rss",
     status_page := some "https://health.aws.amazon.com/health/status", note := none },
   { name := "Azure", kind := "rss", url := "https://azurestatuscdn.azureedge.net/en-us/status/feed/",
     status_page := some "https://azure.status.microsoft", note := none },
   { name := "Google Cloud (GCP)", kind := "gcp_incidents",
     url := "https://status.cloud.google.com/incidents.json",
     status_page := some "https://status.cloud.google.com", note := none },
   { name := "Google Workspace", kind := "gws_incidents_json",
     url := "https://www.google.com/appsstatus/dashboard/incidents.json",
     status_page := some "https://www.google.com/appsstatus/dashboard/", note := none },
   { name := "Microsoft 365", kind := "link_only", url := "",
     status_page := some "https://status.cloud.microsoft",
     note := some "Public status page only (tenant service health API requires admin access)." },
   { name := "PayPal", kind := "rss", url := "https://www.paypal-status.com/feed/rss",
     status_page := some "https://www.paypal-status.com/product/production", note := none },
   { name := "Stripe", kind := "stripe_json", url := "https://status.stripe.com/current/full",
     status_page := some "https://status.stripe.com/", note := none },
   { name := "Adyen", kind := "statuspage_try", url := "https://status.adyen.com",
     status_page := some "https://status.adyen.com/",
     note := some "Attempts public Statuspage-style JSON; if blocked/JS-only, falls back to link-only." },
   { name := "Worldpay Payments Gateway (WPG)", kind := "statuspage_html",
     url := "https://status.wpg.worldpay.com/",
     status_page := some "https://status.wpg.worldpay.com/",
     note := some "Parsed from the public WPG status page HTML." },
   { name := "Visa Acceptance Solutions", kind := "statuspage",
     url := "https://status.visaacceptance.com/api/v2/summary.json",
     status_page := some "https://status.visaacceptance.com/", note := none },
   { name := "Mastercard Developers API Status", kind := "mastercard_dev_html",
     url := "https://developer.mastercard.com/api-status",
     status_page := some "https://developer.mastercard.com/api-status",
     note := some "Attempts to classify by parsing the public page text; may be JS-driven and not parseable." },
   { name := "American Express Developers", kind := "link_only", url := "",
     status_page := some "https://developer.americanexpress.com/",
     note := some "No public status RSS/JSON endpoint found; link-only." }]

/-- Worker bound `min(12, max(4, len(PROVIDERS)))` (app.py line 805), as a
function of the provider count. -/
def max_workers (n : Nat) : Nat := min 12 (max 4 n)

/-- Poll-cycle row `\x7b**p, "level": level, "details": details\x7d`. -/
structure SourceResult where
  provider : Provider
  level : String
  details : List String
deriving DecidableEq

/-- Collection of one provider's future (app.py lines 808-815): the outcome
oracle returns either the pair `summarize` returned or the exception
`fut.result()` re-raised; an exception becomes the "unknown" row. -/
def pollSummarize (outcome : Provider → Except String (String × List String))
    (p : Provider) : SourceResult :=
  match outcome p with
  | .ok (level, details) => { provider := p, level := level, details := details }
  | .error e => { provider := p, level := "unknown", details := ["Unhandled error: " ++ e] }

/-- One poll cycle over the given collection order; `as_completed` yields the
futures in a nondeterministic completion order, so theorems quantify over
every permutation of PROVIDERS. -/
def pollResults (outcome : Provider → Except String (String × List String))
    (order : List Provider) : List SourceResult :=
  order.map (pollSummarize outcome)

/-- Sort key of the result ranker (app.py line 817):
`(severity_order.get(level, 99), name.lower())` under the lexicographic
product order. -/
def rankKey (r : SourceResult) : Lex (Nat × List Char) :=
  toLex (severity_order r.level, (lowerS r.provider.name).data)

/-- Non-strict comparison the stable ascending sort of the ranker follows. -/
def rankRel (a b : SourceResult) : Prop := rankKey a ≤ rankKey b

instance : DecidableRel rankRel :=
  fun a b => inferInstanceAs (Decidable (rankKey a ≤ rankKey b))

instance : IsTotal SourceResult rankRel := ⟨fun a b => le_total (rankKey a) (rankKey b)⟩

instance : IsTrans SourceResult rankRel := ⟨fun _ _ _ h1 h2 => le_trans h1 h2⟩

/-- Result ranker `results.sort(key=...)` (app.py line 817); Python's stable
sort is modelled by insertion sort over the total preorder `rankRel`. -/
def rankResults (results : List SourceResult) : List SourceResult :=
  List.insertionSort rankRel results

/-- Feed entry with the given title and no timestamps. -/
def mkEntry (t : String) : Entry := { title := some t, published := "", updated := "" }

/-- The Stripe crowd entity (group payments, threshold 25). -/
def stripeItem : CrowdItem :=
  { group := "payments", name := "Stripe", slug := "stripe", threshold := 25 }

/-- Successful crowd fetch carrying the given entries. -/
def fetchOk (entries : List Entry) : CrowdFetch :=
  { feed_url := some "https://rsshub.app/outagereport/stripe/10", entries := entries,
    fetched_at := some "2026-02-17 00:00:00 UTC", inst := some "https://rsshub.app",
    err := none }

/-- Fetch result whose only entry reports 42 crowd reports. -/
def res42 : CrowdFetch := fetchOk [mkEntry "Stripe — 42 reports"]

/-- Fetch result whose only entry reports 10 crowd reports. -/
def res10 : CrowdFetch := fetchOk [mkEntry "Stripe — 10 reports"]

/-- Successful fetch of an empty feed. -/
def resEmpty : CrowdFetch := fetchOk []

/-- Demo mirror list of three endpoints. -/
def mirrorA : String := "https://mirror-a.example"

/-- Demo mirror list of three endpoints. -/
def mirrorB : String := "https://mirror-b.example"

/-- Demo mirror list of three endpoints. -/
def mirrorC : String := "https://mirror-c.example"

/-- Demo oracle: mirror A fails with 503, mirror B with 429, mirror C
answers. -/
def demoOracle : String → Except FetchErr (List Entry × String) := fun url =>
  if url = build_outagereport_feed_url mirrorA "stripe" 10 then
    .error (.http (some 503) "503 Service Unavailable")
  else if url = build_outagereport_feed_url mirrorB "stripe" 10 then
    .error (.http (some 429) "429 Too Many Requests")
  else .ok ([mkEntry "Stripe — 42 reports"], "2026-02-17 00:00:00 UTC")

/-- Demo oracle under which every mirror fails, each with its own error. -/
def demoOracleDown : String → Except FetchErr (List Entry × String) := fun url =>
  if url = build_outagereport_feed_url mirrorA "stripe" 10 then
    .error (.http (some 503) "503 Service Unavailable")
  else if url = build_outagereport_feed_url mirrorB "stripe" 10 then
    .error (.http (some 429) "429 Too Many Requests")
  else .error (.http (some 500) "500 Internal Server Error")

/-- Oracle under which every fetch fails with a transport error. -/
def failOracle : String → Except FetchErr (List Entry × String) :=
  fun _ => .error (.other "connection refused")

/-- Outcome oracle under which exactly the AWS provider's summarize call
raises. -/
def demoOutcome : Provider → Except String (String × List String) := fun p =>
  if p.name = "AWS" then .error "boom" else .ok ("ok", [])

/-- Provider descriptor used in the ranker example. -/
def exProvider (name : String) : Provider :=
  { name := name, kind := "rss", url := "", status_page := none, note := none }

/-- The ranker example input: AWS ok, Stripe major, Azure degraded. -/
def exampleResults : List SourceResult :=
  [{ provider := exProvider "AWS", level := "ok", details := [] },
   { provider := exProvider "Stripe", level := "major", details := [] },
   { provider := exProvider "Azure", level := "degraded", details := [] }]

/-- Incident with every key absent: active under both incident-array parsers. -/
def blankIncident : Incident :=
  { «end» := none, resolved := none, title := none, service_name := none,
    begin := none, start := none, severity := none, impact := none,
    most_recent_update := none, external_desc := none }

/-- Incident whose only populated key is `resolved`. -/
def gwsResolvedOnly : Incident := { blankIncident with resolved := some "2024-01-01" }

/-- Incident whose `end` key holds the empty string (present but falsy). -/
def gcpEmptyEnd : Incident := { blankIncident with «end» := some "" }

/-- Incident terminated by `"end": "2024-01-01"`. -/
def closedIncident : Incident := { blankIncident with «end» := some "2024-01-01" }

/-- Level returned by the GCP parser is "ok" exactly when every incident has
a truthy `end` or `resolved` field. -/
lemma gcp_ok_iff (incs : List Incident) :
    (summarize_gcp_incidents (Except.ok incs)).1 = "ok" ↔
      ∀ inc ∈ incs, gcpResolved inc = true := by
  rcases incs with _ | ⟨a, as⟩
  · simp [summarize_gcp_incidents]
  · simp only [summarize_gcp_incidents, List.isEmpty_cons, if_false, Bool.false_eq_true]
    by_cases hact : ((a :: as).filter (fun inc => !gcpResolved inc)).isEmpty
    · rw [if_pos hact]
      rw [List.isEmpty_iff, List.filter_eq_nil_iff] at hact
      refine iff_of_true rfl fun inc hm => ?_
      have := hact inc hm
      simpa using this
    · rw [if_neg hact]
      rw [List.isEmpty_iff, List.filter_eq_nil_iff] at hact
      push_neg at hact
      obtain ⟨inc, hm, hr⟩ := hact
      refine iff_of_false ?_ ?_
      · split <;> simp
      · intro h
        have := h inc hm
        simp [this] at hr

/-- Level returned by the Workspace parser is "ok" exactly when every
incident has a truthy `end` field (the `resolved` key is never consulted). -/
lemma gws_ok_iff (incs : List Incident) :
    (summarize_google_workspace_incidents (Except.ok incs)).1 = "ok" ↔
      ∀ inc ∈ incs, truthy inc.«end» = true := by
  rcases incs with _ | ⟨a, as⟩
  · simp [summarize_google_workspace_incidents]
  · simp only [summarize_google_workspace_incidents, List.isEmpty_cons, if_false,
      Bool.false_eq_true]
    by_cases hact : ((a :: as).filter (fun inc => !truthy inc.«end»)).isEmpty
    · rw [if_pos hact]
      rw [List.isEmpty_iff, List.filter_eq_nil_iff] at hact
      refine iff_of_true rfl fun inc hm => ?_
      have := hact inc hm
      simpa using this
    · rw [if_neg hact]
      rw [List.isEmpty_iff, List.filter_eq_nil_iff] at hact
      push_neg at hact
      obtain ⟨inc, hm, hr⟩ := hact
      refine iff_of_false ?_ ?_
      · split <;> simp
      · intro h
        have := h inc hm
        simp [this] at hr

/-- C1 counterexample: the claim's termination rule fails on the code.  A
Workspace incident whose only termination field is `resolved` is still
active (the Workspace parser checks only `end`), and a GCP incident whose
`end` field is present but empty is still active (presence with a falsy
value does not resolve). -/
theorem C1_counterexample :
    ((summarize_google_workspace_incidents (Except.ok [gwsResolvedOnly])).1 = "degraded" ∧
      gwsResolvedOnly.resolved = some "2024-01-01" ∧ gwsResolvedOnly.«end» = none) ∧
    ((summarize_gcp_incidents (Except.ok [gcpEmptyEnd])).1 = "degraded" ∧
      gcpEmptyEnd.«end» = some "") := by
  decide

/-- C1 (amended): the GCP parser marks an incident resolved exactly when its
`end` or `resolved` field carries a truthy (non-empty) value; the Workspace
parser marks an incident resolved exactly when its `end` field carries a
truthy value.  A payload whose only active incident gains
`"end": "2024-01-01"` yields level "ok" under both parsers. -/
theorem C1_termination_fields :
    ∀ incs : List Incident,
      ((summarize_gcp_incidents (Except.ok incs)).1 = "ok" ↔
        ∀ inc ∈ incs, (truthy inc.«end» || truthy inc.resolved) = true) ∧
      ((summarize_google_workspace_incidents (Except.ok incs)).1 = "ok" ↔
        ∀ inc ∈ incs, truthy inc.«end» = true) ∧
      ((summarize_gcp_incidents (Except.ok [blankIncident])).1 = "degraded" ∧
        (summarize_gcp_incidents (Except.ok [closedIncident])).1 = "ok" ∧
        (summarize_google_workspace_incidents (Except.ok [blankIncident])).1 = "degraded" ∧
        (summarize_google_workspace_incidents (Except.ok [closedIncident])).1 = "ok") := by
  intro incs
  exact ⟨gcp_ok_iff incs, gws_ok_iff incs, by decide⟩

/-- C2: the dispatcher fails loudly on every unrecognized provider kind: the
returned result is the distinguished "unknown" result whose single detail
names the unsupported kind. -/
theorem C2_unsupported_kind :
    ∀ (env : Env) (provider : Provider),
      recognized_kinds.contains provider.kind = false →
      summarize env provider =
        ("unknown", ["Unsupported provider kind: " ++ provider.kind]) := by
  intro env provider h
  simp only [recognized_kinds, List.contains_cons, Bool.or_eq_false_iff,
    List.contains_nil, beq_eq_false_iff_ne, ne_eq] at h
  obtain ⟨h1, h2, h3, h4, h5, h6, h7, h8, h9, -⟩ := h
  simp [summarize, h1, h2, h3, h4, h5, h6, h7, h8, h9]

/-- Environment in which every fetch fails (no oracle is consulted on the
unsupported-kind branch anyway). -/
def offlineEnv : Env :=
  { statuspageJson := fun _ => .error "offline"
    tryJson := fun _ => .error "offline"
    rssFeed := fun _ => .error "offline"
    gcpJson := fun _ => .error "offline"
    gwsJson := fun _ => .error "offline"
    stripeJson := fun _ => .error "offline"
    htmlPage := fun _ => .error "offline" }

/-- Provider descriptor with a kind no parser recognizes. -/
def bogusProvider : Provider :=
  { name := "X", kind := "bogus", url := "", status_page := none, note := none }

/-- C2 witness: the dispatcher on a concrete unrecognized kind. -/
theorem C2_unsupported_kind_witness :
    summarize offlineEnv bogusProvider =
      ("unknown", ["Unsupported provider kind: " ++ bogusProvider.kind]) :=
  C2_unsupported_kind offlineEnv bogusProvider (by decide)

/-- Statuspage payload `{status: {indicator: "critical"}, incidents: []}`. -/
def spCritical : SPPayload :=
  { status := some { indicator := some "critical" }, incidents := [],
    scheduled_maintenances := [] }

/-- Statuspage payload `{status: {indicator: "none"}, incidents: [{impact: "minor"}]}`. -/
def spMinorIncident : SPPayload :=
  { status := some { indicator := some "none" },
    incidents := [{ name := none, impact := some "minor", updated_at := none,
                    created_at := none }],
    scheduled_maintenances := [] }

/-- Statuspage payload `{status: {indicator: "none"}, incidents: []}`. -/
def spQuiet : SPPayload :=
  { status := some { indicator := some "none" }, incidents := [],
    scheduled_maintenances := [] }

/-- C3: the status-API parser returns "major" iff the top-level indicator is
major/critical or some incident in the list it scans (incidents plus
scheduled maintenances) has impact major/critical; otherwise "degraded" iff
the indicator is "minor" or that list is non-empty; otherwise "ok" — with
the three concrete examples from the spec. -/
theorem C3_statuspage_levels :
    ∀ p : SPPayload,
      ((summarize_statuspage (Except.ok p)).1 = "major" ↔
        (spIndicator p = "major" ∨ spIndicator p = "critical" ∨
          ∃ i ∈ p.incidents ++ p.scheduled_maintenances,
            (i.impact = some "major" ∨ i.impact = some "critical"))) ∧
      ((summarize_statuspage (Except.ok p)).1 = "degraded" ↔
        (¬(spIndicator p = "major" ∨ spIndicator p = "critical" ∨
            ∃ i ∈ p.incidents ++ p.scheduled_maintenances,
              (i.impact = some "major" ∨ i.impact = some "critical")) ∧
          (spIndicator p = "minor" ∨ p.incidents ++ p.scheduled_maintenances ≠ []))) ∧
      ((summarize_statuspage (Except.ok p)).1 = "ok" ↔
        (¬(spIndicator p = "major" ∨ spIndicator p = "critical" ∨
            ∃ i ∈ p.incidents ++ p.scheduled_maintenances,
              (i.impact = some "major" ∨ i.impact = some "critical")) ∧
          ¬(spIndicator p = "minor" ∨ p.incidents ++ p.scheduled_maintenances ≠ []))) ∧
      ((summarize_statuspage (Except.ok spCritical)).1 = "major" ∧
        (summarize_statuspage (Except.ok spMinorIncident)).1 = "degraded" ∧
        (summarize_statuspage (Except.ok spQuiet)).1 = "ok") := by
  intro p
  have hmaj : ((spIndicator p == "major" || spIndicator p == "critical") ||
      (p.incidents ++ p.scheduled_maintenances).any spImpactMajor) = true ↔
      (spIndicator p = "major" ∨ spIndicator p = "critical" ∨
        ∃ i ∈ p.incidents ++ p.scheduled_maintenances,
          (i.impact = some "major" ∨ i.impact = some "critical")) := by
    simp only [Bool.or_eq_true, beq_iff_eq, List.any_eq_true]
    constructor
    · rintro ((h | h) | ⟨i, hm, hi⟩)
      · exact .inl h
      · exact .inr (.inl h)
      · exact .inr (.inr ⟨i, hm, by simpa [spImpactMajor] using hi⟩)
    · rintro (h | h | ⟨i, hm, hi⟩)
      · exact .inl (.inl h)
      · exact .inl (.inr h)
      · exact .inr ⟨i, hm, by simpa [spImpactMajor] using hi⟩
  have hdeg : ((spIndicator p == "minor") ||
      !(p.incidents ++ p.scheduled_maintenances).isEmpty) = true ↔
      (spIndicator p = "minor" ∨ p.incidents ++ p.scheduled_maintenances ≠ []) := by
    simp [List.isEmpty_iff]
  have hstep : (summarize_statuspage (Except.ok p)).1 =
      (if ((spIndicator p == "major" || spIndicator p == "critical") ||
          (p.incidents ++ p.scheduled_maintenances).any spImpactMajor) then "major"
        else if ((spIndicator p == "minor") ||
          !(p.incidents ++ p.scheduled_maintenances).isEmpty) then "degraded"
        else "ok") := rfl
  by_cases hA : ((spIndicator p == "major" || spIndicator p == "critical") ||
      (p.incidents ++ p.scheduled_maintenances).any spImpactMajor) = true
  · have hA' := hmaj.mp hA
    rw [hstep, if_pos hA]
    exact ⟨iff_of_true rfl hA', iff_of_false (by decide) (fun h => h.1 hA'),
      iff_of_false (by decide) (fun h => h.1 hA'), by decide⟩
  · have hA' : ¬(spIndicator p = "major" ∨ spIndicator p = "critical" ∨
        ∃ i ∈ p.incidents ++ p.scheduled_maintenances,
          (i.impact = some "major" ∨ i.impact = some "critical")) :=
      fun h => hA (hmaj.mpr h)
    rw [hstep, if_neg hA]
    by_cases hB : ((spIndicator p == "minor") ||
        !(p.incidents ++ p.scheduled_maintenances).isEmpty) = true
    · have hB' := hdeg.mp hB
      rw [if_pos hB]
      exact ⟨iff_of_false (by decide) hA', iff_of_true rfl ⟨hA', hB'⟩,
        iff_of_false (by decide) (fun h => h.2 hB'), by decide⟩
    · have hB' : ¬(spIndicator p = "minor" ∨ p.incidents ++ p.scheduled_maintenances ≠ []) :=
        fun h => hB (hdeg.mpr h)
      rw [if_neg hB]
      exact ⟨iff_of_false (by decide) hA', iff_of_false (by decide) (fun h => hB' h.2),
        iff_of_true rfl ⟨hA', hB'⟩, by decide⟩

/-- C4: the severity classifier applies its rules in fixed precedence order:
any resolution keyword gives "ok"; otherwise any major keyword gives "major";
otherwise any degraded keyword gives "degraded"; otherwise "ok".  In
particular "outage resolved" classifies as "ok" although it contains the
major keyword "outage". -/
theorem C4_classifier_precedence :
    ∀ s : String,
      (hasAnyWord resolved_words s = true → _rss_level_from_title s = "ok") ∧
      (hasAnyWord resolved_words s = false → hasAnyWord major_words s = true →
        _rss_level_from_title s = "major") ∧
      (hasAnyWord resolved_words s = false → hasAnyWord major_words s = false →
        hasAnyWord degraded_words s = true → _rss_level_from_title s = "degraded") ∧
      (hasAnyWord resolved_words s = false → hasAnyWord major_words s = false →
        hasAnyWord degraded_words s = false → _rss_level_from_title s = "ok") ∧
      (_rss_level_from_title "outage resolved" = "ok" ∧
        hasAnyWord major_words "outage resolved" = true) := by
  intro s
  refine ⟨?_, ?_, ?_, ?_, by decide⟩ <;>
    · intros
      simp only [_rss_level_from_title]
      simp [*]

/-- C4 witness: the concrete co-occurrence example, via the theorem. -/
theorem C4_classifier_precedence_witness :
    _rss_level_from_title "outage resolved" = "ok" :=
  (C4_classifier_precedence "outage resolved").1 (by decide)

/-- C10: the severity classifier only ever returns "ok", "major" or
"degraded" (never "unknown" or "info"); consequently the feed parser returns
a level in {ok, degraded, major} on every successful fetch, and returns
"unknown" exactly on its fetch/parse-error branch; it never returns "info". -/
theorem C10_classifier_total_range :
    (∀ s, _rss_level_from_title s ∈ (["ok", "major", "degraded"] : List String)) ∧
    (∀ entries, (summarize_rss (Except.ok entries)).1 ∈
      (["ok", "degraded", "major"] : List String)) ∧
    (∀ err, (summarize_rss (Except.error err)).1 = "unknown") := by
  refine ⟨fun s => ?_, fun entries => ?_, fun err => rfl⟩
  · simp only [_rss_level_from_title]
    split <;> [skip; split] <;> [simp; simp; split <;> simp]
  · simp only [summarize_rss]
    split <;> [simp; split <;> [simp; split <;> simp]]

/-- One scan step preserves the "maximum reaches the threshold" reading: the
new maximum reaches `thr` exactly when the old one did or the stepped entry
yields a count reaching `thr`. -/
lemma scanStep_above (st : ScanState) (e : Entry) (thr : Nat) :
    (∃ m, (scanStep st e).max_reports = some m ∧ thr ≤ m) ↔
      ((∃ m, st.max_reports = some m ∧ thr ≤ m) ∨
        (∃ n, extract_title_count e = some n ∧ thr ≤ n)) := by
  cases hx : extract_title_count e with
  | none =>
    cases hb : st.best_title with
    | none => simp [scanStep, hx, hb]
    | some t => simp [scanStep, hx, hb]
  | some n =>
    cases hm : st.max_reports with
    | none => simp [scanStep, hx, hm]
    | some c =>
      by_cases hlt : c < n
      · simp only [scanStep, hx, hm, if_pos hlt]
        simp only [Option.some.injEq]
        constructor
        · rintro ⟨m, rfl, hthr⟩
          exact .inr ⟨n, rfl, hthr⟩
        · rintro (⟨m, rfl, hthr⟩ | ⟨m, rfl, hthr⟩)
          · exact ⟨n, rfl, by omega⟩
          · exact ⟨n, rfl, hthr⟩
      · simp only [scanStep, hx, hm, if_neg hlt]
        simp only [hm, Option.some.injEq]
        constructor
        · rintro ⟨m, rfl, hthr⟩
          exact .inl ⟨c, rfl, hthr⟩
        · rintro (⟨m, rfl, hthr⟩ | ⟨m, rfl, hthr⟩)
          · exact ⟨c, rfl, hthr⟩
          · exact ⟨c, rfl, by omega⟩

/-- Folded version of `scanStep_above` over a whole entry window. -/
lemma scan_above (thr : Nat) :
    ∀ (l : List Entry) (st : ScanState),
      (∃ m, (l.foldl scanStep st).max_reports = some m ∧ thr ≤ m) ↔
        ((∃ m, st.max_reports = some m ∧ thr ≤ m) ∨
          ∃ e ∈ l, ∃ n, extract_title_count e = some n ∧ thr ≤ n) := by
  intro l
  induction l with
  | nil => intro st; simp
  | cons e rest ih =>
    intro st
    rw [List.foldl_cons, ih, scanStep_above]
    simp only [List.mem_cons]
    constructor
    · rintro ((h | h) | ⟨e', he', hn⟩)
      · exact .inl h
      · exact .inr ⟨e, .inl rfl, h⟩
      · exact .inr ⟨e', .inr he', hn⟩
    · rintro (h | ⟨e', he' | he', hn⟩)
      · exact .inl (.inl h)
      · exact .inl (.inr (he' ▸ hn))
      · exact .inr ⟨e', he', hn⟩

/-- The scanned maximum reaches the threshold exactly when some entry of the
window yields a count reaching it. -/
lemma scanEntries_above (thr : Nat) (l : List Entry) :
    (∃ m, (scanEntries l).max_reports = some m ∧ thr ≤ m) ↔
      ∃ e ∈ l, ∃ n, extract_title_count e = some n ∧ thr ≤ n := by
  rw [scanEntries, scan_above]
  simp

/-- C5: a crowd alert for an entity is emitted exactly when some entry among
the 5 most recent yields a numeric report count reaching the entity's
threshold; the extraction accepts both the "N report(s)" form and the
"report(s): N" / "report(s) - N" forms case-insensitively, first applicable
pattern per title.  Concretely: "Stripe — 42 reports" at threshold 25 alerts
with reportCount 42, "Stripe — 10 reports" does not, and an empty feed
produces no alert and no error. -/
theorem C5_crowd_alert_threshold :
    ∀ (s : CrowdItem) (res : CrowdFetch),
      ((processEntries s res).2.isSome = true ↔
        ∃ e ∈ res.entries.take 5, ∃ n, extract_title_count e = some n ∧ s.threshold ≤ n) ∧
      (Option.map CrowdAlert.reports (processEntries stripeItem res42).2 = some 42 ∧
        (processEntries stripeItem res10).2 = none ∧
        (processEntries stripeItem resEmpty).2 = none ∧
        (processEntries stripeItem resEmpty).1.ok = true ∧
        (processEntries stripeItem resEmpty).1.error = "" ∧
        extract_title_count (mkEntry "3 report") = some 3 ∧
        extract_title_count (mkEntry "Reports: 12") = some 12 ∧
        extract_title_count (mkEntry "report - 9") = some 9 ∧
        extract_title_count (mkEntry "42 REPORTS") = some 42 ∧
        extract_title_count (mkEntry "5 reports, reports: 7") = some 5) := by
  intro s res
  refine ⟨?_, by decide⟩
  have hP : (processEntries s res).2 = alertDecision s res := rfl
  rw [hP]
  by_cases hemp : res.entries.isEmpty
  · rw [List.isEmpty_iff] at hemp
    simp [alertDecision, hemp]
  · simp only [alertDecision, if_neg hemp]
    rw [← scanEntries_above s.threshold (res.entries.take 5)]
    rcases hm : (scanEntries (res.entries.take 5)).max_reports with _ | m
    · simp [hm]
    · by_cases hth : s.threshold ≤ m
      · simp [hm, hth]
      · simp only [hm, if_neg hth, Option.isSome_none, Option.some.injEq]
        constructor
        · intro h; cases h
        · rintro ⟨m', rfl, hthr⟩
          exact absurd hthr hth

/-- The mirror loop skips any run of failing mirrors and returns the first
success, whatever error was accumulated so far. -/
lemma fallback_success_after_failures
    (oracle : String → Except FetchErr (List Entry × String)) (slug : String) (count : Nat)
    (inst : String) (post : List String) (entries : List Entry) (t : String)
    (hok : oracle (build_outagereport_feed_url inst slug count) = .ok (entries, t)) :
    ∀ (pre : List String) (acc : Option FetchErr),
      (∀ i ∈ pre, ∃ e, oracle (build_outagereport_feed_url i slug count) = .error e) →
      fetch_fallback_loop oracle slug count (pre ++ inst :: post) acc =
        { feed_url := some (build_outagereport_feed_url inst slug count), entries := entries,
          fetched_at := some t, inst := some inst, err := none } := by
  intro pre
  induction pre with
  | nil =>
    intro acc _
    simp only [List.nil_append, fetch_fallback_loop, hok]
  | cons i pre' ih =>
    intro acc h
    obtain ⟨e, he⟩ := h i (List.mem_cons_self i pre')
    have hrest : ∀ j ∈ pre', ∃ e', oracle (build_outagereport_feed_url j slug count) = .error e' :=
      fun j hj => h j (List.mem_cons_of_mem i hj)
    simp only [List.cons_append, fetch_fallback_loop, he]
    cases e with
    | http status msg =>
      simp only [ite_self]
      exact ih _ hrest
    | other msg => exact ih _ hrest

/-- The mirror loop on an exhausted list reports the last mirror's error. -/
lemma fallback_exhausted
    (oracle : String → Except FetchErr (List Entry × String)) (slug : String) (count : Nat)
    (mlast : String) (elast : FetchErr)
    (hlast : oracle (build_outagereport_feed_url mlast slug count) = .error elast) :
    ∀ (pre : List String) (acc : Option FetchErr),
      (∀ i ∈ pre, ∃ e, oracle (build_outagereport_feed_url i slug count) = .error e) →
      fetch_fallback_loop oracle slug count (pre ++ [mlast]) acc =
        { feed_url := none, entries := [], fetched_at := none, inst := none,
          err := some elast } := by
  intro pre
  induction pre with
  | nil =>
    intro acc _
    simp only [List.nil_append, fetch_fallback_loop, hlast]
    cases elast with
    | http status msg => simp only [ite_self]
    | other msg => rfl
  | cons i pre' ih =>
    intro acc h
    obtain ⟨e, he⟩ := h i (List.mem_cons_self i pre')
    have hrest : ∀ j ∈ pre', ∃ e', oracle (build_outagereport_feed_url j slug count) = .error e' :=
      fun j hj => h j (List.mem_cons_of_mem i hj)
    simp only [List.cons_append, fetch_fallback_loop, he]
    cases e with
    | http status msg =>
      simp only [ite_self]
      exact ih _ hrest
    | other msg => exact ih _ hrest

/-- C6: the mirror resolver walks the candidate list in order, continues past
any failing mirror (transient HTTP code, other HTTP failure or transport
error) while remembering the most recent error, returns the first success
together with the answering endpoint, and on exhaustion returns the failure
record carrying the last mirror's error; `fetch_crowd_feed_with_fallback`
is exactly this loop over the fixed RSSHUB_INSTANCES list. -/
theorem C6_mirror_fallback :
    ∀ (oracle : String → Except FetchErr (List Entry × String)) (slug : String) (count : Nat),
      (∀ (pre post : List String) (inst : String) (entries : List Entry) (t : String),
        (∀ i ∈ pre, ∃ e, oracle (build_outagereport_feed_url i slug count) = .error e) →
        oracle (build_outagereport_feed_url inst slug count) = .ok (entries, t) →
        fetch_fallback_loop oracle slug count (pre ++ inst :: post) none =
          { feed_url := some (build_outagereport_feed_url inst slug count), entries := entries,
            fetched_at := some t, inst := some inst, err := none }) ∧
      (∀ (pre : List String) (mlast : String) (elast : FetchErr),
        (∀ i ∈ pre, ∃ e, oracle (build_outagereport_feed_url i slug count) = .error e) →
        oracle (build_outagereport_feed_url mlast slug count) = .error elast →
        fetch_fallback_loop oracle slug count (pre ++ [mlast]) none =
          { feed_url := none, entries := [], fetched_at := none, inst := none,
            err := some elast }) ∧
      fetch_crowd_feed_with_fallback oracle slug count =
        fetch_fallback_loop oracle slug count RSSHUB_INSTANCES none := by
  intro oracle slug count
  refine ⟨?_, ?_, rfl⟩
  · intro pre post inst entries t h hok
    exact fallback_success_after_failures oracle slug count inst post entries t hok pre none h
  · intro pre mlast elast h hlast
    exact fallback_exhausted oracle slug count mlast elast hlast pre none h

/-- C6 witness: mirrors [A(503), B(429), C(ok)] yield C's entries with C as
the answering endpoint, and with every mirror down the last error is kept. -/
theorem C6_mirror_fallback_witness :
    (fetch_fallback_loop demoOracle "stripe" 10 [mirrorA, mirrorB, mirrorC] none =
      { feed_url := some (build_outagereport_feed_url mirrorC "stripe" 10),
        entries := [mkEntry "Stripe — 42 reports"],
        fetched_at := some "2026-02-17 00:00:00 UTC", inst := some mirrorC, err := none }) ∧
    (fetch_fallback_loop demoOracleDown "stripe" 10 [mirrorA, mirrorB, mirrorC] none =
      { feed_url := none, entries := [], fetched_at := none, inst := none,
        err := some (.http (some 500) "500 Internal Server Error") }) := by
  constructor
  · exact (C6_mirror_fallback demoOracle "stripe" 10).1 [mirrorA, mirrorB] [] mirrorC
      [mkEntry "Stripe — 42 reports"] "2026-02-17 00:00:00 UTC"
      (by intro i hi; fin_cases hi
          · exact ⟨.http (some 503) "503 Service Unavailable", by rfl⟩
          · exact ⟨.http (some 429) "429 Too Many Requests", by rfl⟩)
      (by rfl)
  · exact (C6_mirror_fallback demoOracleDown "stripe" 10).2.1 [mirrorA, mirrorB] mirrorC
      (.http (some 500) "500 Internal Server Error")
      (by intro i hi; fin_cases hi
          · exact ⟨.http (some 503) "503 Service Unavailable", by rfl⟩
          · exact ⟨.http (some 429) "429 Too Many Requests", by rfl⟩)
      (by rfl)

/-- C8: a crowd-group run produces exactly one check per entity of the
requested group (in order, even for failed fetches), its alert list is
sorted by report count descending, the fixed-allowlist entry point is the
same runner over CROWD_ALLOWLIST, and when no entity's scan reaches its
threshold the alert list is the empty list. -/
theorem C8_crowd_run_shape :
    ∀ (oracle : String → Except FetchErr (List Entry × String))
      (allowlist : List CrowdItem) (group_name : String),
      ((run_crowd_signals_over oracle allowlist group_name).2.map Check.name =
        (allowlist.filter (fun s => s.group = group_name)).map CrowdItem.name) ∧
      List.Pairwise (fun a b => b.reports ≤ a.reports)
        (run_crowd_signals_over oracle allowlist group_name).1 ∧
      (run_crowd_signals_for_group oracle group_name =
        run_crowd_signals_over oracle CROWD_ALLOWLIST group_name) ∧
      ((∀ s ∈ allowlist.filter (fun s => s.group = group_name),
          (processItem oracle s).2 = none) →
        (run_crowd_signals_over oracle allowlist group_name).1 = []) := by
  intro oracle allowlist group_name
  refine ⟨?_, ?_, rfl, ?_⟩
  · simp only [run_crowd_signals_over]
    rw [List.map_map, List.map_map]
    rfl
  · simp only [run_crowd_signals_over]
    exact List.sorted_insertionSort alertOrder _
  · intro h
    simp only [run_crowd_signals_over]
    have hnil : ((allowlist.filter (fun s => s.group = group_name)).map
        (fun s => processItem oracle s)).filterMap (fun pr => pr.2) = [] := by
      rw [List.filterMap_eq_nil_iff]
      intro pr hpr
      obtain ⟨s, hs, rfl⟩ := List.mem_map.mp hpr
      exact h s hs
    rw [hnil]
    rfl

/-- C8 witness: a run in which the only group entity's fetch fails keeps an
empty (present) alert list. -/
theorem C8_crowd_run_shape_witness :
    (run_crowd_signals_over failOracle [stripeItem] "payments").1 = [] :=
  (C8_crowd_run_shape failOracle [stripeItem] "payments").2.2.2 (by decide)

/-- C7: for any completion order of the N configured providers, the poll
cycle returns exactly N results; a provider whose call raises contributes
the "unknown" row with an explanatory detail while every other provider's
row is its own outcome; the worker pool is bounded between 4 and 12, and at
the source's 12 providers it is 12. -/
theorem C7_poll_isolation :
    ∀ (outcome : Provider → Except String (String × List String)) (order : List Provider),
      order.Perm PROVIDERS →
      ((pollResults outcome order).length = PROVIDERS.length ∧
        ∀ p ∈ PROVIDERS, ∃ r ∈ pollResults outcome order, r.provider = p ∧
          (∀ e, outcome p = .error e →
            r.level = "unknown" ∧ r.details = ["Unhandled error: " ++ e]) ∧
          (∀ l d, outcome p = .ok (l, d) → r.level = l ∧ r.details = d)) ∧
      (∀ n, 4 ≤ max_workers n ∧ max_workers n ≤ 12) ∧
      max_workers PROVIDERS.length = 12 := by
  intro outcome order hperm
  refine ⟨⟨?_, ?_⟩, fun n => ?_, by decide⟩
  · simp [pollResults, hperm.length_eq]
  · intro p hp
    refine ⟨pollSummarize outcome p,
      List.mem_map_of_mem (pollSummarize outcome) (hperm.mem_iff.mpr hp), ?_, ?_, ?_⟩
    · cases houtp : outcome p with
      | ok pair => simp [pollSummarize, houtp]
      | error e => simp [pollSummarize, houtp]
    · intro e he
      simp [pollSummarize, he]
    · intro l d hld
      simp [pollSummarize, hld]
  · simp only [max_workers]
    omega

/-- C7 witness: with a concrete outcome oracle under which AWS raises, the
poll over the source's collection order still returns all 12 rows. -/
theorem C7_poll_isolation_witness :
    (pollResults demoOutcome PROVIDERS).length = PROVIDERS.length :=
  ((C7_poll_isolation demoOutcome PROVIDERS (List.Perm.refl PROVIDERS)).1).1

/-- C9: the ranked output is a permutation of the input, pairwise ordered by
strictly smaller severity rank or equal rank with case-insensitively
non-decreasing name; a result of strictly smaller severity rank always
appears strictly earlier; and {AWS ok, Stripe major, Azure degraded} ranks
as [Stripe, Azure, AWS]. -/
theorem C9_result_ranker :
    ∀ results : List SourceResult,
      (rankResults results).Perm results ∧
      List.Pairwise (fun a b =>
        severity_order a.level < severity_order b.level ∨
          (severity_order a.level = severity_order b.level ∧
            (lowerS a.provider.name).data ≤ (lowerS b.provider.name).data))
        (rankResults results) ∧
      (∀ i j : Fin (rankResults results).length,
        severity_order ((rankResults results).get i).level <
          severity_order ((rankResults results).get j).level → i < j) ∧
      (rankResults exampleResults).map (fun r => r.provider.name) =
        ["Stripe", "Azure", "AWS"] := by
  intro results
  have hsorted : List.Pairwise rankRel (rankResults results) :=
    List.sorted_insertionSort rankRel results
  have hpair : List.Pairwise (fun a b =>
      severity_order a.level < severity_order b.level ∨
        (severity_order a.level = severity_order b.level ∧
          (lowerS a.provider.name).data ≤ (lowerS b.provider.name).data))
      (rankResults results) := by
    refine hsorted.imp ?_
    intro a b hab
    exact (Prod.Lex.le_iff (severity_order a.level, (lowerS a.provider.name).data)
      (severity_order b.level, (lowerS b.provider.name).data)).mp hab
  refine ⟨List.perm_insertionSort rankRel results, hpair, ?_, by decide⟩
  intro i j hij
  rcases lt_trichotomy i j with h | h | h
  · exact h
  · exfalso; rw [h] at hij; exact lt_irrefl _ hij
  · exfalso
    have hji := List.pairwise_iff_get.mp hpair j i h
    rcases hji with hlt | ⟨heq, _⟩
    · omega
    · omega

/-- C9 witness: in the ranked example, the strictly-more-severe Stripe row
precedes the Azure row. -/
theorem C9_result_ranker_witness :
    (⟨0, by decide⟩ : Fin (rankResults exampleResults).length) < ⟨1, by decide⟩ :=
  (C9_result_ranker exampleResults).2.2.1 ⟨0, by decide⟩ ⟨1, by decide⟩ (by decide)

end OutageWatch
